import Mathlib

set_option autoImplicit false

namespace Spec2Proof

/-!
Shallow embedding of the Redux-style state container and the reducers of the
repository (counter reducer from `01_redux-intro-and-reducer-pattern/script.js`,
plain cart reducer from `05_creating-multiple-reducers/Readme.md`, and the
Immer/`createSlice` cart reducer from `store/slices/cartSlice`).
-/

/-- Modelled from the spec: the repository describes `myCreateStore` (the
StateContainer of §4.1: `create` / `getState` / `dispatch` / `subscribe`)
in `01_redux-intro-and-reducer-pattern/script.js`, but its implementation
file is not among the sources.  The container holds a transition function
(which may fail, modelling a reducer that throws), the current state, the
registered listeners in registration order (each tagged with the fresh
handle issued at `subscribe` time, so the same callback value may be
registered several times and removed per handle), and the next fresh
handle. -/
structure Container (S A E L : Type) where
  transition : S → A → Except E S
  state : S
  listeners : List (Nat × L)
  nextId : Nat

/-- Modelled from the spec: `create(transition, initialState)` returns a
container whose current state is `initialState`, with no listeners. -/
def create {S A E L : Type} (t : S → A → Except E S) (s0 : S) : Container S A E L :=
  ⟨t, s0, [], 0⟩

/-- Modelled from the spec: `getState()` returns the current committed state. -/
def Container.getState {S A E L : Type} (c : Container S A E L) : S :=
  c.state

/-- Modelled from the spec: `dispatch(action)` applies the transition to the
current state.  On success it commits the new state, returns it, and the
notification pass invokes every registered listener once, in registration
order.  If the transition fails, the container is unchanged, no listener is
invoked, and the original error propagates unwrapped.  The result triple is
(container after the call, value returned or error raised by `dispatch`,
ordered list of listeners invoked during the call). -/
def Container.dispatch {S A E L : Type} (c : Container S A E L) (a : A) :
    Container S A E L × Except E S × List L :=
  match c.transition c.state a with
  | .error e => (c, .error e, [])
  | .ok s1 => ({ c with state := s1 }, .ok s1, c.listeners.map Prod.snd)

/-- Modelled from the spec: `subscribe(listener)` appends a registration
with a fresh handle and returns (container, handle). -/
def Container.subscribe {S A E L : Type} (c : Container S A E L) (l : L) :
    Container S A E L × Nat :=
  ({ c with listeners := c.listeners ++ [(c.nextId, l)], nextId := c.nextId + 1 },
   c.nextId)

/-- Modelled from the spec: invoking an unsubscribe handle removes exactly
the registration carrying that handle; calling it again removes nothing
further and does not fail. -/
def Container.unsubscribe {S A E L : Type} (c : Container S A E L) (h : Nat) :
    Container S A E L :=
  { c with listeners := c.listeners.filter (fun p => p.1 ≠ h) }

/-- A pure reducer (one that never throws) lifted into the fallible
transition type used by the container. -/
def pureT {S A E : Type} (t : S → A → S) : S → A → Except E S :=
  fun s a => .ok (t s a)

/-- Repeated `dispatch` over a whole list of actions, keeping only the container
(the caller discards return values). -/
def Container.dispatchAll {S A E L : Type} (c : Container S A E L) (as : List A) :
    Container S A E L :=
  as.foldl (fun c a => (c.dispatch a).1) c

theorem dispatch_pure {S A E L : Type} (t : S → A → S) (c : Container S A E L)
    (ht : c.transition = pureT t) (a : A) :
    c.dispatch a = ({ c with state := t c.state a }, .ok (t c.state a), c.listeners.map Prod.snd) := by
  simp [Container.dispatch, ht, pureT]

theorem dispatchAll_pure {S A E L : Type} (t : S → A → S) (as : List A) :
    ∀ c : Container S A E L, c.transition = pureT t →
      c.dispatchAll as =
        { c with state := as.foldl t c.state } := by
  induction as with
  | nil => intro c _; simp [Container.dispatchAll]
  | cons a as ih =>
    intro c ht
    have h1 : (c.dispatch a).1 = { c with state := t c.state a } := by
      rw [dispatch_pure t c ht a]
    show Container.dispatchAll (c.dispatch a).1 as = _
    rw [h1, ih { c with state := t c.state a } ht]
    simp [List.foldl_cons]

/-- A container whose transition always fails, used to exhibit concrete
failure behaviour. -/
def failingContainer : Container Nat Nat String Unit :=
  create (fun _ _ => .error "boom") 0

/-- C1: the container created by `create(t, s0)` returns `s0` from
`getState()` before any dispatch; after the i-th dispatch of a
failure-free action sequence, `getState()` returns the left fold of the
transition over the actions dispatched so far, i.e. `t(s_{i-1}, a_i)`,
and that i-th `dispatch` call also returns exactly that new state. -/
theorem create_dispatch_trace {S A : Type} (t : S → A → S) (s0 : S) (as : List A)
    (i : Nat) (hi : i < as.length) :
    (create (E := Unit) (L := Unit) (pureT t) s0).getState = s0
    ∧ ((create (E := Unit) (L := Unit) (pureT t) s0).dispatchAll as).getState = as.foldl t s0
    ∧ (((create (E := Unit) (L := Unit) (pureT t) s0).dispatchAll (as.take i)).dispatch
         as[i]).2.1 = .ok ((as.take (i + 1)).foldl t s0)
    ∧ (((create (E := Unit) (L := Unit) (pureT t) s0).dispatchAll (as.take i)).dispatch
         as[i]).1.getState = (as.take (i + 1)).foldl t s0 := by
  have hall : ∀ bs : List A,
      (create (E := Unit) (L := Unit) (pureT t) s0).dispatchAll bs =
        { create (E := Unit) (L := Unit) (pureT t) s0 with state := bs.foldl t s0 } := by
    intro bs
    exact dispatchAll_pure t bs _ rfl
  have h1 : as.take (i + 1) = as.take i ++ [as[i]] := by
    rw [List.take_succ, List.getElem?_eq_getElem hi]
    rfl
  have hstep : (as.take (i + 1)).foldl t s0 = t ((as.take i).foldl t s0) as[i] := by
    rw [h1, List.foldl_append]
    rfl
  refine ⟨rfl, ?_, ?_, ?_⟩
  · rw [hall as]; rfl
  · rw [hall (as.take i), dispatch_pure t _ rfl]
    simp [hstep]
  · rw [hall (as.take i), dispatch_pure t _ rfl]
    simp [Container.getState, hstep]

theorem create_dispatch_trace_witness :
    (1 < [7, 9, 11].length)
    ∧ ((create (E := Unit) (L := Unit) (pureT (fun (s : Int) (a : Int) => s + a)) 0).getState = 0
       ∧ ((create (E := Unit) (L := Unit) (pureT (fun (s : Int) (a : Int) => s + a)) 0).dispatchAll
            [7, 9, 11]).getState = [7, 9, 11].foldl (fun s a => s + a) 0
       ∧ (((create (E := Unit) (L := Unit) (pureT (fun (s : Int) (a : Int) => s + a)) 0).dispatchAll
            ([7, 9, 11].take 1)).dispatch [7, 9, 11][1]).2.1
            = .ok (([7, 9, 11].take 2).foldl (fun s a => s + a) 0)
       ∧ (((create (E := Unit) (L := Unit) (pureT (fun (s : Int) (a : Int) => s + a)) 0).dispatchAll
            ([7, 9, 11].take 1)).dispatch [7, 9, 11][1]).1.getState
            = ([7, 9, 11].take 2).foldl (fun s a => s + a) 0) :=
  ⟨by decide, create_dispatch_trace (fun s a => s + a) 0 [7, 9, 11] 1 (by decide)⟩

/-- C2: if the transition fails on `(state, action)`, the failed
`dispatch` leaves the container (hence `getState()`) exactly as before
the call, invokes no listener, and propagates the original error
unwrapped to the caller. -/
theorem dispatch_failure_atomic {S A E L : Type} (c : Container S A E L) (a : A) (e : E)
    (h : c.transition c.state a = .error e) :
    (c.dispatch a).1 = c
    ∧ (c.dispatch a).1.getState = c.getState
    ∧ (c.dispatch a).2.1 = .error e
    ∧ (c.dispatch a).2.2 = ([] : List L) := by
  simp [Container.dispatch, h, Container.getState]

theorem dispatch_failure_atomic_witness :
    (failingContainer.transition failingContainer.state 0 = .error "boom")
    ∧ ((failingContainer.dispatch 0).1 = failingContainer
       ∧ (failingContainer.dispatch 0).1.getState = failingContainer.getState
       ∧ (failingContainer.dispatch 0).2.1 = .error "boom"
       ∧ (failingContainer.dispatch 0).2.2 = ([] : List Unit)) :=
  ⟨rfl, dispatch_failure_atomic failingContainer 0 "boom" rfl⟩

/-- The container obtained from `create t s0` after subscribing the three
listeners l1, l2, l3 in that order. -/
def subscribed3 {S A E L : Type} (t : S → A → Except E S) (s0 : S) (l1 l2 l3 : L) :
    Container S A E L :=
  ((((create t s0).subscribe l1).1.subscribe l2).1.subscribe l3).1

/-- The unsubscribe handle returned by the second `subscribe` call in the
three-listener scenario. -/
def handle2 {S A E L : Type} (t : S → A → Except E S) (s0 : S) (l1 l2 : L) : Nat :=
  (((create t s0).subscribe l1).1.subscribe l2).2

/-- A concrete successful transition on `Nat`, for witnesses. -/
def succTransition : Nat → Nat → Except String Nat :=
  fun s _ => .ok (s + 1)

/-- C3: a successful dispatch invokes every currently registered,
not-yet-unsubscribed listener exactly once, synchronously, in
registration order: with L1, L2, L3 subscribed in that order the
notification pass is exactly [L1, L2, L3]; in general the pass equals the
registration list in registration order. -/
theorem dispatch_notifies_in_order {S A E L : Type} (t : S → A → Except E S) (s0 : S)
    (l1 l2 l3 : L) (a : A) (s1 : S) (h : t s0 a = .ok s1) :
    ((subscribed3 t s0 l1 l2 l3).dispatch a).2.2 = [l1, l2, l3]
    ∧ (∀ c : Container S A E L, ∀ s2 : S, c.transition c.state a = .ok s2 →
        (c.dispatch a).2.2 = c.listeners.map Prod.snd) := by
  constructor
  · simp [subscribed3, create, Container.subscribe, Container.dispatch, h]
  · intro c s2 hc
    simp [Container.dispatch, hc]

theorem dispatch_notifies_in_order_witness :
    (succTransition 0 0 = .ok 1)
    ∧ (((subscribed3 succTransition 0 10 20 30).dispatch 0).2.2 = [10, 20, 30]
       ∧ (∀ c : Container Nat Nat String Nat, ∀ s2 : Nat, c.transition c.state 0 = .ok s2 →
            (c.dispatch 0).2.2 = c.listeners.map Prod.snd)) :=
  ⟨rfl, dispatch_notifies_in_order succTransition 0 10 20 30 0 1 rfl⟩

/-- C4: invoking the unsubscribe handle of the second of three
registrations removes exactly that one (a later dispatch invokes only L1
and L3, in order), and invoking the same handle again changes nothing
(idempotent per handle) and does not fail. -/
theorem unsubscribe_removes_exactly_one {S A E L : Type} (t : S → A → Except E S) (s0 : S)
    (l1 l2 l3 : L) (a : A) (s1 : S) (h : t s0 a = .ok s1) :
    ((((subscribed3 t s0 l1 l2 l3).unsubscribe (handle2 t s0 l1 l2)).dispatch a).2.2
        = [l1, l3])
    ∧ (((subscribed3 t s0 l1 l2 l3).unsubscribe (handle2 t s0 l1 l2)).unsubscribe
          (handle2 t s0 l1 l2)
        = (subscribed3 t s0 l1 l2 l3).unsubscribe (handle2 t s0 l1 l2)) := by
  constructor
  · simp [subscribed3, handle2, create, Container.subscribe, Container.unsubscribe,
      Container.dispatch, h]
  · simp [subscribed3, handle2, create, Container.subscribe, Container.unsubscribe]

theorem unsubscribe_removes_exactly_one_witness :
    (succTransition 0 0 = .ok 1)
    ∧ (((((subscribed3 succTransition 0 10 20 30).unsubscribe
            (handle2 succTransition 0 10 20)).dispatch 0).2.2 = [10, 30])
       ∧ (((subscribed3 succTransition 0 10 20 30).unsubscribe
             (handle2 succTransition 0 10 20)).unsubscribe (handle2 succTransition 0 10 20)
           = (subscribed3 succTransition 0 10 20 30).unsubscribe
               (handle2 succTransition 0 10 20))) :=
  ⟨rfl, unsubscribe_removes_exactly_one succTransition 0 10 20 30 0 1 rfl⟩

/-! ## The counter example -/

/-- State of the §8 counter scenario: a record with a single numeric
`count` field. -/
structure CounterState where
  count : Int
deriving DecidableEq, Repr

/-- Counter actions: a `type` string and an optional numeric payload. -/
structure CounterAction where
  type : String
  payload : Option Int
deriving DecidableEq, Repr

/-- Modelled from the spec: the counter transition of the §8 end-to-end
scenario (the reducer pattern of `script.js`, with the action
types of the scenario): type "increment" returns `{count := count + 1}`, "incrementBy"
adds the numeric payload of the action, any other type returns the state
unchanged.  Every scenario action whose branch reads the payload carries
one. -/
def counterTransition (state : CounterState) (action : CounterAction) : CounterState :=
  if action.type = "increment" then { count := state.count + 1 }
  else if action.type = "incrementBy" then { count := state.count + action.payload.getD 0 }
  else state

/-- C5: starting from `{count := 0}`, dispatching `increment` yields
`{count := 1}`, then `incrementBy 15` yields `{count := 16}`, then the
unknown type "decrement" leaves the state unchanged at `{count := 16}`. -/
theorem counter_scenario :
    ((create (E := Unit) (L := Unit) (pureT counterTransition) { count := 0 }).getState
        = { count := 0 })
    ∧ (((create (E := Unit) (L := Unit) (pureT counterTransition) { count := 0 }).dispatch
          { type := "increment", payload := none }).1.getState = { count := 1 })
    ∧ ((((create (E := Unit) (L := Unit) (pureT counterTransition) { count := 0 }).dispatch
          { type := "increment", payload := none }).1.dispatch
          { type := "incrementBy", payload := some 15 }).1.getState = { count := 16 })
    ∧ (((((create (E := Unit) (L := Unit) (pureT counterTransition) { count := 0 }).dispatch
          { type := "increment", payload := none }).1.dispatch
          { type := "incrementBy", payload := some 15 }).1.dispatch
          { type := "decrement", payload := none }).1.getState = { count := 16 })
    ∧ (((((create (E := Unit) (L := Unit) (pureT counterTransition) { count := 0 }).dispatch
          { type := "increment", payload := none }).1.dispatch
          { type := "incrementBy", payload := some 15 }).1.dispatch
          { type := "decrement", payload := none }).2.1 = .ok { count := 16 }) := by
  refine ⟨rfl, ?_, ?_, ?_, ?_⟩ <;>
    simp [create, Container.dispatch, Container.getState, pureT, counterTransition]

/-! ## The post counter reducer of `01_redux-intro-and-reducer-pattern/script.js` -/

/-- The state shape of the script.js store. -/
structure PostState where
  count : Int
  name : String
  age : Int
deriving DecidableEq, Repr

/-- An action for the post reducer: a `type` string and an optional
numeric payload. -/
structure PostAction where
  type : String
  payload : Option Int
deriving DecidableEq, Repr

def increment : String := "post/increment"

def decrement : String := "post/decrement"

def incrementBy : String := "post/incrementBy"

def decrementBy : String := "post/decrementBy"

/-- The counter reducer of `01_redux-intro-and-reducer-pattern/script.js`
(lines 117–130).  Numeric payloads are modelled as `Option Int`; the
`incrementBy`/`decrementBy` branches read the payload (every dispatch of
those actions in the source supplies one; a missing payload there would
produce NaN in JavaScript, which has no integer counterpart and is not
exercised by any claim).  The default branch returns the state argument
itself. -/
def reducer (state : PostState) (action : PostAction) : PostState :=
  if action.type = increment then { state with count := state.count + 1 }
  else if action.type = decrement then { state with count := state.count - 1 }
  else if action.type = incrementBy then
    { state with count := state.count + action.payload.getD 0 }
  else if action.type = decrementBy then
    { state with count := state.count - action.payload.getD 0 }
  else state

/-- C7: for an action whose type matches none of the four cases, the
reducer returns the very state it was given (in the embedding, the result
is the state argument itself, mirroring the `default: return
state` of the source), and dispatching such an action through a container leaves
`getState()` unchanged. -/
theorem reducer_default_identity (s : PostState) (a : PostAction)
    (h1 : a.type ≠ increment) (h2 : a.type ≠ decrement)
    (h3 : a.type ≠ incrementBy) (h4 : a.type ≠ decrementBy) :
    reducer s a = s
    ∧ ((create (E := Unit) (L := Unit) (pureT reducer) s).dispatch a).1.getState = s := by
  have hr : reducer s a = s := by
    simp [reducer, h1, h2, h3, h4]
  exact ⟨hr, by simp [create, Container.dispatch, pureT, Container.getState, hr]⟩

theorem reducer_default_identity_witness :
    (("post/reset" : String) ≠ increment ∧ ("post/reset" : String) ≠ decrement
       ∧ ("post/reset" : String) ≠ incrementBy ∧ ("post/reset" : String) ≠ decrementBy)
    ∧ (reducer ⟨0, "Anurag Singh", 26⟩ ⟨"post/reset", none⟩ = ⟨0, "Anurag Singh", 26⟩
       ∧ ((create (E := Unit) (L := Unit) (pureT reducer) ⟨0, "Anurag Singh", 26⟩).dispatch
            ⟨"post/reset", none⟩).1.getState = ⟨0, "Anurag Singh", 26⟩) :=
  ⟨⟨by decide, by decide, by decide, by decide⟩,
   reducer_default_identity ⟨0, "Anurag Singh", 26⟩ ⟨"post/reset", none⟩
     (by decide) (by decide) (by decide) (by decide)⟩

/-! ## Cart reducers -/

/-- A cart entry: `{ productId, quantity }`.  `productId` is `Option`
because a JavaScript record may lack the field (an item pushed by
spreading an absent payload has no `productId`). -/
structure CartItem where
  productId : Option Nat
  quantity : Int
deriving DecidableEq, Repr

/-- The payload record carried by the toolkit cart actions:
`{ productId }` (built by the slice action creators). -/
structure CartPayload where
  productId : Nat
deriving DecidableEq, Repr

def CART_ADD_ITEM : String := "cart/addItem"

def CART_REMOVE_ITEM : String := "cart/removeItem"

def CART_ITEM_INCREASE_QUANTITY : String := "cart/increaseItemQuantity"

def CART_ITEM_DECREASE_QUANTITY : String := "cart/decreaseItemQuantity"

/-- An action for the plain switch-based cart reducer; its payload is the
dispatched record (a full item for `addItem`; the other cases read only
its `productId`). -/
structure PlainCartAction where
  type : String
  payload : CartItem
deriving DecidableEq, Repr

/-- The arrow passed to `.map` in the decrease-quantity case: decrement
the quantity of the item whose `productId` matches, keep others. -/
def decMatching (pid : Option Nat) (item : CartItem) : CartItem :=
  if item.productId = pid then { item with quantity := item.quantity - 1 } else item

/-- The `.filter` predicate of the decrease-quantity case:
`cartItem.quantity > 0`. -/
def posQuantity (item : CartItem) : Bool :=
  decide (item.quantity > 0)

/-- The plain switch-based cart reducer of
`05_creating-multiple-reducers/Readme.md` (the same switch appears as the
commented Redux version of the cart slice and as the `cartItems` case of
the root reducer): add appends the payload, remove filters by
`productId`, increase maps `quantity + 1` onto the match, decrease maps
`quantity - 1` onto the match and then filters `quantity > 0`, any other
type returns the state unchanged. -/
def cartReducerPlain (state : List CartItem) (action : PlainCartAction) : List CartItem :=
  if action.type = CART_ADD_ITEM then
    state ++ [action.payload]
  else if action.type = CART_REMOVE_ITEM then
    state.filter (fun item => decide (item.productId ≠ action.payload.productId))
  else if action.type = CART_ITEM_INCREASE_QUANTITY then
    state.map (fun item =>
      if item.productId = action.payload.productId then
        { item with quantity := item.quantity + 1 }
      else item)
  else if action.type = CART_ITEM_DECREASE_QUANTITY then
    (state.map (decMatching action.payload.productId)).filter posQuantity
  else state

/-- An action for the Immer-based cart reducer: the payload is optional
(a store-initialization action carries none) and, when present, is the
`{ productId }` record built by the slice action creators. -/
structure ImmerCartAction where
  type : String
  payload : Option CartPayload
deriving DecidableEq, Repr

/-- JavaScript `Array.prototype.findIndex` returning `none` for `-1`:
index of the first element satisfying the predicate. -/
def jsFindIdx {α : Type} (p : α → Bool) : List α → Option Nat
  | [] => none
  | x :: xs => if p x then some 0 else (jsFindIdx p xs).map (· + 1)

/-- The `-1`-convention integer index produced by `findIndex`. -/
def jsIndex (idx : Option Nat) : Int :=
  match idx with
  | some i => (i : Int)
  | none => -1

/-- JavaScript `Array.prototype.splice(start, deleteCount)` restricted to
its deleting form: a negative `start` counts from the end (clamped at 0),
a non-negative one is clamped at the length. -/
def jsSplice {α : Type} (l : List α) (start : Int) (deleteCount : Nat) : List α :=
  let s : Nat := if start < 0 then ((l.length : Int) + start).toNat else min start.toNat l.length
  l.take s ++ l.drop (s + deleteCount)

/-- Replace the element at the given index (if any) by the image under
`f`, modelling an in-place update of `state[i]` on the Immer draft. -/
def listModify {α : Type} (f : α → α) : Nat → List α → List α
  | _, [] => []
  | 0, x :: xs => f x :: xs
  | n + 1, x :: xs => x :: listModify f n xs

/-- The Immer/`produce`-based cart reducer of the cart slice (the
`createSlice` reducers `addCartItem`, `removeCartItem`,
`increaseCartItemQuantity`, `decreaseCartItemQuantity` share the same
bodies).  `findIndex` runs before the switch and its predicate reads
`action.payload.productId`, so with no payload and a non-empty state the
call raises a TypeError (modelled as `.error`); on an empty state the
predicate is never invoked and the index is `-1`.  `state[-1].quantity`
accesses likewise raise.  Remove splices at the raw index (so `-1`
deletes the last element); decrease decrements the match and splices it
out when the decremented quantity is exactly 0; an unmatched switch falls
through to `default: return state`. -/
def cartReducerImmer (originalState : List CartItem) (action : ImmerCartAction) :
    Except String (List CartItem) :=
  match action.payload with
  | none =>
    match originalState with
    | [] =>
      if action.type = CART_ADD_ITEM then
        .ok [{ productId := none, quantity := 1 }]
      else if action.type = CART_REMOVE_ITEM then
        .ok (jsSplice ([] : List CartItem) (-1) 1)
      else if action.type = CART_ITEM_INCREASE_QUANTITY then
        .error "TypeError: cannot read quantity of undefined"
      else if action.type = CART_ITEM_DECREASE_QUANTITY then
        .error "TypeError: cannot read quantity of undefined"
      else
        .ok []
    | _ :: _ => .error "TypeError: cannot read productId of undefined"
  | some payload =>
    let idx := jsFindIdx (fun item => decide (item.productId = some payload.productId))
      originalState
    if action.type = CART_ADD_ITEM then
      match idx with
      | some i =>
        .ok (listModify (fun item => { item with quantity := item.quantity + 1 }) i
          originalState)
      | none =>
        .ok (originalState ++ [{ productId := some payload.productId, quantity := 1 }])
    else if action.type = CART_REMOVE_ITEM then
      .ok (jsSplice originalState (jsIndex idx) 1)
    else if action.type = CART_ITEM_INCREASE_QUANTITY then
      match idx with
      | some i =>
        .ok (listModify (fun item => { item with quantity := item.quantity + 1 }) i
          originalState)
      | none => .error "TypeError: cannot read quantity of undefined"
    else if action.type = CART_ITEM_DECREASE_QUANTITY then
      match idx with
      | some i =>
        if ((listModify (fun item => { item with quantity := item.quantity - 1 }) i
              originalState).get? i).map CartItem.quantity = some 0 then
          .ok (jsSplice
            (listModify (fun item => { item with quantity := item.quantity - 1 }) i
              originalState) (i : Int) 1)
        else
          .ok (listModify (fun item => { item with quantity := item.quantity - 1 }) i
            originalState)
      | none => .error "TypeError: cannot read quantity of undefined"
    else .ok originalState

theorem decMatching_productId (pid : Option Nat) (item : CartItem) :
    (decMatching pid item).productId = item.productId := by
  unfold decMatching
  split <;> rfl

theorem jsFindIdx_eq_none {α : Type} (p : α → Bool) (l : List α)
    (h : ∀ x ∈ l, p x = false) : jsFindIdx p l = none := by
  induction l with
  | nil => rfl
  | cons a tl ih =>
    have ha := h a (List.mem_cons_self a tl)
    have htl : ∀ x ∈ tl, p x = false := fun x hx => h x (List.mem_cons_of_mem a hx)
    simp [jsFindIdx, ha, ih htl]

theorem jsSplice_neg_one {α : Type} (l : List α) (h : l ≠ []) :
    jsSplice l (-1) 1 = l.dropLast := by
  have hpos : 0 < l.length := List.length_pos.mpr h
  have h1 : ((l.length : Int) + (-1)).toNat = l.length - 1 := by omega
  have h2 : l.length - 1 + 1 = l.length := by omega
  simp [jsSplice, h1, h2, List.drop_length, List.dropLast_eq_take]

theorem jsSplice_zero_one {α : Type} (a : α) (l : List α) :
    jsSplice (a :: l) 0 1 = l := by
  simp [jsSplice]

theorem jsSplice_natCast {α : Type} (l : List α) (i : Nat) (d : Nat) :
    jsSplice l ((i : Nat) : Int) d = l.take (min i l.length) ++ l.drop (min i l.length + d) := by
  have hc : ¬(((i : Nat) : Int) < 0) := by omega
  have ht : ((i : Nat) : Int).toNat = i := by omega
  simp [jsSplice, hc, ht]

theorem jsSplice_cons_succ {α : Type} (a : α) (l : List α) (i : Nat) :
    jsSplice (a :: l) ((i + 1 : Nat) : Int) 1 = a :: jsSplice l ((i : Nat) : Int) 1 := by
  rw [jsSplice_natCast, jsSplice_natCast]
  simp [List.length_cons, Nat.succ_min_succ, List.take_succ_cons, List.drop_succ_cons]

/-- C10: a `cart/removeItem` dispatch whose `productId` matches nothing
in a non-empty cart removes the last item (findIndex yields -1 and
`splice(-1, 1)` deletes the final element) instead of leaving the cart
unchanged. -/
theorem removeItem_unknown_pid_removes_last (st : List CartItem) (pid : Nat)
    (hne : st ≠ []) (habs : ∀ it ∈ st, it.productId ≠ some pid) :
    cartReducerImmer st ⟨CART_REMOVE_ITEM, some ⟨pid⟩⟩ = .ok st.dropLast := by
  have hidx : jsFindIdx (fun item => decide (item.productId = some pid)) st = none :=
    jsFindIdx_eq_none _ _ (fun x hx => by simp [habs x hx])
  simp [cartReducerImmer, hidx, jsIndex, jsSplice_neg_one st hne,
    CART_ADD_ITEM, CART_REMOVE_ITEM, CART_ITEM_INCREASE_QUANTITY,
    CART_ITEM_DECREASE_QUANTITY]

theorem removeItem_unknown_pid_removes_last_witness :
    (([⟨some 1, 2⟩, ⟨some 2, 3⟩] : List CartItem) ≠ []
       ∧ ∀ it ∈ ([⟨some 1, 2⟩, ⟨some 2, 3⟩] : List CartItem), it.productId ≠ some 99)
    ∧ cartReducerImmer [⟨some 1, 2⟩, ⟨some 2, 3⟩] ⟨CART_REMOVE_ITEM, some ⟨99⟩⟩
        = .ok ([⟨some 1, 2⟩, ⟨some 2, 3⟩] : List CartItem).dropLast :=
  ⟨⟨by decide, by decide⟩,
   removeItem_unknown_pid_removes_last [⟨some 1, 2⟩, ⟨some 2, 3⟩] 99 (by decide) (by decide)⟩

/-- C8 as stated is false: for the non-empty cart `[{productId := 1,
quantity := 1}]` and the payload-less store-initialization action
`@@redux/INIT` (whose type is none of the four cart types), the
Immer-based cartReducer raises a TypeError (the `findIndex` predicate
reads `action.payload.productId` before the switch) instead of returning
the state unchanged without raising. -/
theorem cart_init_action_counterexample :
    cartReducerImmer [{ productId := some 1, quantity := 1 }]
        { type := "@@redux/INIT", payload := none }
      = .error "TypeError: cannot read productId of undefined" := rfl

/-- C8 amended: for every cart state and every action whose type is none
of the four cart action types, the Immer-based cartReducer returns the
state unchanged and does not raise provided the action carries a payload
(with a productId); a payload-less such action does not raise only when
the cart is empty. -/
theorem cart_unknown_action_with_payload_safe (st : List CartItem) (t : String) (pid : Nat)
    (h1 : t ≠ CART_ADD_ITEM) (h2 : t ≠ CART_REMOVE_ITEM)
    (h3 : t ≠ CART_ITEM_INCREASE_QUANTITY) (h4 : t ≠ CART_ITEM_DECREASE_QUANTITY) :
    cartReducerImmer st ⟨t, some ⟨pid⟩⟩ = .ok st
    ∧ cartReducerImmer [] ⟨t, none⟩ = .ok [] := by
  constructor <;> simp [cartReducerImmer, h1, h2, h3, h4]

theorem cart_unknown_action_with_payload_safe_witness :
    (("@@redux/INIT" : String) ≠ CART_ADD_ITEM
       ∧ ("@@redux/INIT" : String) ≠ CART_REMOVE_ITEM
       ∧ ("@@redux/INIT" : String) ≠ CART_ITEM_INCREASE_QUANTITY
       ∧ ("@@redux/INIT" : String) ≠ CART_ITEM_DECREASE_QUANTITY)
    ∧ (cartReducerImmer [⟨some 1, 1⟩] ⟨"@@redux/INIT", some ⟨7⟩⟩ = .ok [⟨some 1, 1⟩]
       ∧ cartReducerImmer [] ⟨"@@redux/INIT", none⟩ = .ok []) :=
  ⟨⟨by decide, by decide, by decide, by decide⟩,
   cart_unknown_action_with_payload_safe [⟨some 1, 1⟩] "@@redux/INIT" 7
     (by decide) (by decide) (by decide) (by decide)⟩

theorem decrease_core (pid : Nat) (q : Int) :
    ∀ l : List CartItem, l.Pairwise (fun a b => a.productId ≠ b.productId) →
      (⟨some pid, q⟩ : CartItem) ∈ l →
      (((∃ it ∈ (l.map (decMatching (some pid))).filter posQuantity,
           it.productId = some pid) ↔ q - 1 > 0)
       ∧ (q - 1 > 0 →
           (⟨some pid, q - 1⟩ : CartItem) ∈ (l.map (decMatching (some pid))).filter posQuantity)) := by
  intro l
  induction l with
  | nil => intro _ hmem; cases hmem
  | cons a tl ih =>
    intro hp hmem
    rw [List.pairwise_cons] at hp
    obtain ⟨ha, htl⟩ := hp
    rcases List.mem_cons.mp hmem with heq | hmemtl
    · have heq2 : a = (⟨some pid, q⟩ : CartItem) := heq.symm
      subst heq2
      have hdecA : decMatching (some pid) (⟨some pid, q⟩ : CartItem)
          = (⟨some pid, q - 1⟩ : CartItem) := by
        simp [decMatching]
      have htlno : ∀ it ∈ (tl.map (decMatching (some pid))).filter posQuantity,
          it.productId ≠ some pid := by
        intro it hit
        have hit2 := List.mem_of_mem_filter hit
        obtain ⟨b, hb, hbit⟩ := List.mem_map.mp hit2
        rw [← hbit, decMatching_productId]
        exact fun hc => (ha b hb) hc.symm
      rw [List.map_cons, hdecA, List.filter_cons]
      by_cases hq1 : q - 1 > 0
      · have hpq : posQuantity (⟨some pid, q - 1⟩ : CartItem) = true := by
          simp [posQuantity, hq1]
        rw [if_pos hpq]
        constructor
        · constructor
          · intro _; exact hq1
          · intro _
            exact ⟨⟨some pid, q - 1⟩, List.mem_cons_self _ _, rfl⟩
        · intro _
          exact List.mem_cons_self _ _
      · have hpq : posQuantity (⟨some pid, q - 1⟩ : CartItem) = false := by
          simp [posQuantity]
          omega
        rw [if_neg (by simp [hpq])]
        constructor
        · constructor
          · rintro ⟨it, hit, hpidit⟩
            exact absurd hpidit (htlno it hit)
          · intro hc; exact absurd hc hq1
        · intro hc; exact absurd hc hq1
    · have hane : a.productId ≠ some pid := fun hc => by
        have := ha _ hmemtl
        simp [hc] at this
      have hdecA : decMatching (some pid) a = a := by
        simp [decMatching, hane]
      obtain ⟨ihiff, ihmem⟩ := ih htl hmemtl
      rw [List.map_cons, hdecA, List.filter_cons]
      by_cases hqa : posQuantity a = true
      · rw [if_pos hqa]
        constructor
        · rw [List.exists_mem_cons_iff]
          constructor
          · rintro (hc | hrest)
            · exact absurd hc hane
            · exact ihiff.mp hrest
          · intro hq1; exact Or.inr (ihiff.mpr hq1)
        · intro hq1; exact List.mem_cons_of_mem a (ihmem hq1)
      · rw [if_neg hqa]
        exact ⟨ihiff, ihmem⟩

/-- C6: with pairwise-distinct productIds, one `decreaseItemQuantity`
dispatch for a productId held at quantity q leaves the item present
exactly when q - 1 > 0 (so a quantity-1 item is absent afterwards), and
when it stays it stays with quantity q - 1 (so a quantity-3 item becomes
quantity-2 rather than being removed). -/
theorem decrease_quantity_floor (st : List CartItem) (pid : Nat) (q : Int) (pl : CartItem)
    (hdist : st.Pairwise (fun a b => a.productId ≠ b.productId))
    (hpl : pl.productId = some pid)
    (hmem : (⟨some pid, q⟩ : CartItem) ∈ st) :
    ((∃ it ∈ cartReducerPlain st ⟨CART_ITEM_DECREASE_QUANTITY, pl⟩, it.productId = some pid)
        ↔ q - 1 > 0)
    ∧ (q - 1 > 0 →
        (⟨some pid, q - 1⟩ : CartItem) ∈ cartReducerPlain st ⟨CART_ITEM_DECREASE_QUANTITY, pl⟩) := by
  have hred : cartReducerPlain st ⟨CART_ITEM_DECREASE_QUANTITY, pl⟩
      = (st.map (decMatching (some pid))).filter posQuantity := by
    simp [cartReducerPlain, hpl, CART_ADD_ITEM, CART_REMOVE_ITEM,
      CART_ITEM_INCREASE_QUANTITY, CART_ITEM_DECREASE_QUANTITY]
  rw [hred]
  exact decrease_core pid q st hdist hmem

theorem decrease_quantity_floor_witness :
    ((([⟨some 1, 1⟩, ⟨some 2, 3⟩] : List CartItem).Pairwise
        (fun a b => a.productId ≠ b.productId))
       ∧ ((⟨some 1, 0⟩ : CartItem).productId = some 1)
       ∧ ((⟨some 1, 1⟩ : CartItem) ∈ ([⟨some 1, 1⟩, ⟨some 2, 3⟩] : List CartItem)))
    ∧ (((∃ it ∈ cartReducerPlain [⟨some 1, 1⟩, ⟨some 2, 3⟩]
            ⟨CART_ITEM_DECREASE_QUANTITY, ⟨some 1, 0⟩⟩, it.productId = some 1)
          ↔ (1 : Int) - 1 > 0)
       ∧ ((1 : Int) - 1 > 0 →
           (⟨some 1, (1 : Int) - 1⟩ : CartItem) ∈ cartReducerPlain [⟨some 1, 1⟩, ⟨some 2, 3⟩]
             ⟨CART_ITEM_DECREASE_QUANTITY, ⟨some 1, 0⟩⟩)) :=
  ⟨⟨by decide, by decide, by decide⟩,
   decrease_quantity_floor [⟨some 1, 1⟩, ⟨some 2, 3⟩] 1 1 ⟨some 1, 0⟩
     (by decide) (by decide) (by decide)⟩

theorem immer_decrease_eq_plain (pid : Nat) :
    ∀ l : List CartItem, l.Pairwise (fun a b => a.productId ≠ b.productId) →
      (∀ it ∈ l, 1 ≤ it.quantity) → (∃ it ∈ l, it.productId = some pid) →
      ∃ i, jsFindIdx (fun item => decide (item.productId = some pid)) l = some i
        ∧ (if ((listModify (fun item => { item with quantity := item.quantity - 1 }) i l).get?
              i).map CartItem.quantity = some 0 then
             jsSplice (listModify (fun item => { item with quantity := item.quantity - 1 }) i l)
               ((i : Nat) : Int) 1
           else
             listModify (fun item => { item with quantity := item.quantity - 1 }) i l)
          = (l.map (decMatching (some pid))).filter posQuantity := by
  intro l
  induction l with
  | nil => intro _ _ hex; obtain ⟨it, hit, _⟩ := hex; cases hit
  | cons a tl ih =>
    intro hp hq hex
    rw [List.pairwise_cons] at hp
    obtain ⟨ha, htl⟩ := hp
    by_cases hpa : a.productId = some pid
    · refine ⟨0, ?_, ?_⟩
      · simp [jsFindIdx, hpa]
      · have hdq : decMatching (some pid) a = { a with quantity := a.quantity - 1 } := by
          simp [decMatching, hpa]
        have htlmap : tl.map (decMatching (some pid)) = tl := by
          have hcong : tl.map (decMatching (some pid)) = tl.map (fun b => b) :=
            List.map_congr_left (fun b hb => by
              have hbne : b.productId ≠ some pid := fun hc => (ha b hb) (hpa.trans hc.symm)
              simp [decMatching, hbne])
          rw [hcong, List.map_id']
        have htlfilter : tl.filter posQuantity = tl := by
          apply List.filter_eq_self.mpr
          intro b hb
          have h1 := hq b (List.mem_cons_of_mem a hb)
          simp only [posQuantity, gt_iff_lt, decide_eq_true_eq]
          omega
        have hqa1 : 1 ≤ a.quantity := hq a (List.mem_cons_self a tl)
        rw [List.map_cons, hdq, List.filter_cons]
        have hmod0 : listModify (fun item => ({ item with quantity := item.quantity - 1 } :
            CartItem)) 0 (a :: tl) = { a with quantity := a.quantity - 1 } :: tl := rfl
        rw [hmod0]
        have hget0 : ((({ a with quantity := a.quantity - 1 } : CartItem) :: tl).get? 0).map
            CartItem.quantity = some (a.quantity - 1) := rfl
        rw [hget0]
        by_cases hz : a.quantity - 1 = 0
        · rw [if_pos (by rw [hz])]
          have hsp : jsSplice (({ a with quantity := a.quantity - 1 } : CartItem) :: tl)
              ((0 : Nat) : Int) 1 = tl := by
            simpa using jsSplice_zero_one ({ a with quantity := a.quantity - 1 } : CartItem) tl
          rw [hsp]
          have hpq : posQuantity ({ a with quantity := a.quantity - 1 } : CartItem) = false := by
            simp only [posQuantity, gt_iff_lt, decide_eq_false_iff_not, not_lt]
            omega
          rw [if_neg (by simp [hpq]), htlmap, htlfilter]
        · rw [if_neg (by simpa using hz)]
          have hpq : posQuantity ({ a with quantity := a.quantity - 1 } : CartItem) = true := by
            simp only [posQuantity, gt_iff_lt, decide_eq_true_eq]
            omega
          rw [if_pos hpq, htlmap, htlfilter]
    · have hex2 : ∃ it ∈ tl, it.productId = some pid := by
        obtain ⟨it, hit, hpidit⟩ := hex
        rcases List.mem_cons.mp hit with hh | hh
        · rw [hh] at hpidit; exact absurd hpidit hpa
        · exact ⟨it, hh, hpidit⟩
      obtain ⟨i, hfind, heq⟩ := ih htl (fun b hb => hq b (List.mem_cons_of_mem a hb)) hex2
      refine ⟨i + 1, ?_, ?_⟩
      · simp [jsFindIdx, hpa, hfind]
      · have hdq : decMatching (some pid) a = a := by simp [decMatching, hpa]
        have hqa : posQuantity a = true := by
          have h1 := hq a (List.mem_cons_self a tl)
          simp only [posQuantity, gt_iff_lt, decide_eq_true_eq]
          omega
        rw [List.map_cons, hdq, List.filter_cons, if_pos hqa]
        have hmodS : listModify (fun item => ({ item with quantity := item.quantity - 1 } :
              CartItem)) (i + 1) (a :: tl)
            = a :: listModify (fun item => ({ item with quantity := item.quantity - 1 } :
              CartItem)) i tl := rfl
        rw [hmodS]
        have hgetS : ((a :: listModify (fun item => ({ item with quantity := item.quantity - 1 } :
              CartItem)) i tl).get? (i + 1))
            = (listModify (fun item => ({ item with quantity := item.quantity - 1 } :
              CartItem)) i tl).get? i := rfl
        rw [hgetS]
        by_cases hc : ((listModify (fun item => ({ item with quantity := item.quantity - 1 } :
            CartItem)) i tl).get? i).map CartItem.quantity = some 0
        · rw [if_pos hc, jsSplice_cons_succ]
          rw [if_pos hc] at heq
          rw [heq]
        · rw [if_neg hc]
          rw [if_neg hc] at heq
          rw [heq]

/-- C9: on a cart with pairwise-distinct productIds, all quantities at
least 1, and the targeted productId present, the plain switch-based cart
reducer (map then filter quantity > 0) and the Immer/`produce`-based
cartReducer (decrement then splice at 0) agree on `decreaseItemQuantity`:
the Immer reducer succeeds with exactly the result of the plain reducer. -/
theorem decrease_plain_immer_equiv (st : List CartItem) (pid : Nat) (pl : CartItem)
    (hdist : st.Pairwise (fun a b => a.productId ≠ b.productId))
    (hq : ∀ it ∈ st, 1 ≤ it.quantity)
    (hpres : ∃ it ∈ st, it.productId = some pid)
    (hpl : pl.productId = some pid) :
    cartReducerImmer st ⟨CART_ITEM_DECREASE_QUANTITY, some ⟨pid⟩⟩
      = .ok (cartReducerPlain st ⟨CART_ITEM_DECREASE_QUANTITY, pl⟩) := by
  obtain ⟨i, hfind, heq⟩ := immer_decrease_eq_plain pid st hdist hq hpres
  have hplain : cartReducerPlain st ⟨CART_ITEM_DECREASE_QUANTITY, pl⟩
      = (st.map (decMatching (some pid))).filter posQuantity := by
    simp [cartReducerPlain, hpl, CART_ADD_ITEM, CART_REMOVE_ITEM,
      CART_ITEM_INCREASE_QUANTITY, CART_ITEM_DECREASE_QUANTITY]
  rw [hplain, ← heq]
  simp only [cartReducerImmer]
  simp [CART_ADD_ITEM, CART_REMOVE_ITEM, CART_ITEM_INCREASE_QUANTITY,
    CART_ITEM_DECREASE_QUANTITY, hfind]
  split <;> rfl

theorem decrease_plain_immer_equiv_witness :
    ((([⟨some 1, 1⟩, ⟨some 2, 3⟩] : List CartItem).Pairwise
        (fun a b => a.productId ≠ b.productId))
       ∧ (∀ it ∈ ([⟨some 1, 1⟩, ⟨some 2, 3⟩] : List CartItem), 1 ≤ it.quantity)
       ∧ (∃ it ∈ ([⟨some 1, 1⟩, ⟨some 2, 3⟩] : List CartItem), it.productId = some 2)
       ∧ ((⟨some 2, 5⟩ : CartItem).productId = some 2))
    ∧ cartReducerImmer [⟨some 1, 1⟩, ⟨some 2, 3⟩] ⟨CART_ITEM_DECREASE_QUANTITY, some ⟨2⟩⟩
        = .ok (cartReducerPlain [⟨some 1, 1⟩, ⟨some 2, 3⟩]
            ⟨CART_ITEM_DECREASE_QUANTITY, ⟨some 2, 5⟩⟩) :=
  ⟨⟨by decide, by decide, by decide, by decide⟩,
   decrease_plain_immer_equiv [⟨some 1, 1⟩, ⟨some 2, 3⟩] 2 ⟨some 2, 5⟩
     (by decide) (by decide) (by decide) (by decide)⟩

end Spec2Proof
